import Mathlib

/-!
Shallow embedding of the kghs-alumni-backend Express server (server.js).

Each mongoose schema becomes a Lean structure; the document store becomes an
explicit `AppState` record of collections (with a `nextId` counter standing in
for ObjectId assignment).  Each HTTP handler becomes a pure function from the
state and the request data to a response value and an updated state.  External
collaborators are passed in as parameters:

* bcrypt: `bcryptCompare`/`bcryptHash` function parameters;
* the paystack gateway: a function `InitReq -> Except String String` for
  transaction.initialize (the returned `Option InitReq` component of the
  handler result records the exact request sent to the gateway, `none` when no
  call was made), and an `Except String VerifyData` parameter for
  transaction.verify;
* nodemailer transporter.sendMail: an `Except String Unit` parameter;
* a thrown-and-caught JS exception surfaces as the `Except.error` branch, and
  an uncaught JS exception is modelled by the handler returning
  `Except.error` as its response component with the state unchanged.

Dates, populate-name resolution and sort order are not touched by any claim
and are elided; monetary amounts are rationals, mirroring JS number
arithmetic on the values involved.
-/

namespace KGHS

/-- JSON scalar values appearing in response documents. -/
inductive JsVal
  | str (s : String)
  | num (q : ℚ)
  | jbool (b : Bool)
deriving Repr, DecidableEq

/-- userSchema: email (unique), password (hashed), name, graduationYear, bio,
location, profilePic, role (default alumni), isApproved (default false). -/
structure User where
  id : Nat
  email : String
  password : String
  name : String
  graduationYear : Int
  bio : String
  location : String
  profilePic : String
  role : String
  isApproved : Bool
deriving Repr, DecidableEq

/-- A forum reply subdocument: content plus author reference. -/
structure Reply where
  content : String
  author : Nat
deriving Repr, DecidableEq

/-- forumThreadSchema: title, content, author, replies. -/
structure ForumThread where
  id : Nat
  title : String
  content : String
  author : Nat
  replies : List Reply
deriving Repr, DecidableEq

/-- donationSchema: amount, donor. -/
structure Donation where
  amount : ℚ
  donor : Nat
deriving Repr, DecidableEq

/-- newsSchema: title, content, author. -/
structure NewsItem where
  title : String
  content : String
  author : Nat
deriving Repr, DecidableEq

/-- boardMinuteSchema: title, fileUrl. -/
structure BoardMinute where
  title : String
  fileUrl : String
deriving Repr, DecidableEq

/-- The document store: one collection per schema, plus an id counter. -/
structure AppState where
  users : List User
  threads : List ForumThread
  donations : List Donation
  news : List NewsItem
  boardMinutes : List BoardMinute
  nextId : Nat
deriving Repr, DecidableEq

/-- The JWT payload.  Login signs only the id field; reading
req.user.email on such a token yields undefined, modelled as `none`. -/
structure TokenPayload where
  id : Nat
  email : Option String
deriving Repr, DecidableEq

/-! ## POST /api/auth/login -/

/-- Responses of the login handler: 400 with msg Invalid credentials,
403 with the pending-approval msg, or 200 with token and user summary. -/
inductive LoginResp
  | invalidCredentials
  | pendingApproval
  | success (token : TokenPayload) (id : Nat) (email name role : String)
deriving Repr, DecidableEq

/-- POST /api/auth/login: find the user by email; reject unknown email with
invalid-credentials; reject an unapproved user with pending-approval; then
compare the password, rejecting a mismatch with invalid-credentials; on
success sign a token carrying only the id. -/
def login (st : AppState) (email password : String)
    (bcryptCompare : String → String → Bool) : LoginResp :=
  match st.users.find? (fun u => u.email == email) with
  | none => .invalidCredentials
  | some u =>
    if !u.isApproved then .pendingApproval
    else if !(bcryptCompare password u.password) then .invalidCredentials
    else .success { id := u.id, email := none } u.id u.email u.name u.role

/-! ## POST /api/auth/signup -/

/-- Responses of the signup handler. -/
inductive SignupResp
  | userExists
  | invalidYear
  | okPending
deriving Repr, DecidableEq

/-- POST /api/auth/signup: reject a duplicate email, then reject a
graduation year outside [1950, currentYear + 10], else store the user with a
hashed password and isApproved = false. -/
def signup (st : AppState) (currentYear : Int) (email password name : String)
    (graduationYear : Int) (bcryptHash : String → String) : SignupResp × AppState :=
  match st.users.find? (fun u => u.email == email) with
  | some _ => (.userExists, st)
  | none =>
    if graduationYear < 1950 || graduationYear > currentYear + 10 then
      (.invalidYear, st)
    else
      let u : User :=
        { id := st.nextId, email := email, password := bcryptHash password,
          name := name, graduationYear := graduationYear, bio := "",
          location := "", profilePic := "", role := "alumni", isApproved := false }
      (.okPending, { st with users := st.users ++ [u], nextId := st.nextId + 1 })

/-! ## GET /api/directory -/

/-- JS String.prototype.toUpperCase restricted to the ASCII range. -/
def jsToUpper (s : String) : String := String.mk (s.data.map Char.toUpper)

/-- JS String.prototype.toLowerCase restricted to the ASCII range. -/
def jsToLower (s : String) : String := String.mk (s.data.map Char.toLower)

/-- Case-insensitive substring containment.  This is the spec wording of the
location filter (substring match); the code instead hands the filter string to
the store as a regex pattern, see regexSearch.  Kept to compare the two. -/
def strContainsCI (hay needle : String) : Bool :=
  let h := (jsToLower hay).data
  let n := (jsToLower needle).data
  (List.range (h.length + 1)).any (fun i => n.isPrefixOf (h.drop i))

/-- Does the pattern match a prefix of the text?  Each pattern character
consumes one text character; the dot metacharacter matches any character,
every other character only itself. -/
def patMatch : List Char → List Char → Bool
  | [], _ => true
  | _ :: _, [] => false
  | c :: ps, t :: ts => (c == '.' || c == t) && patMatch ps ts

/-- The store's regex-with-i-option operator applied to the raw filter string,
as the directory route uses it.  Modelled from the spec: the document store is
an opaque external collaborator, and its regex operator is modelled here on
the pattern fragment the filter semantics turns on — literal characters plus
the dot wildcard — searched unanchored, case-insensitively under the i
option. -/
def regexSearch (pattern text : String) : Bool :=
  let p := (jsToLower pattern).data
  let t := (jsToLower text).data
  (List.range (t.length + 1)).any (fun i => patMatch p (t.drop i))

/-- The mongoose filter built by the directory route: isApproved true, plus
optional exact graduationYear and the raw location filter string applied as a
case-insensitive regex pattern. -/
def dirMatches (yearF : Option Int) (locF : Option String) (u : User) : Bool :=
  u.isApproved
    && (match yearF with | none => true | some y => u.graduationYear == y)
    && (match locF with | none => true | some l => regexSearch l u.location)

/-- The projection select(-password -isApproved): every schema field except
password and isApproved, rendered as a JSON document. -/
def userDocPublic (u : User) : List (String × JsVal) :=
  [("_id", .num (u.id : ℚ)), ("email", .str u.email), ("name", .str u.name),
   ("graduationYear", .num (u.graduationYear : ℚ)), ("bio", .str u.bio),
   ("location", .str u.location), ("profilePic", .str u.profilePic),
   ("role", .str u.role)]

/-- GET /api/directory: filter, then project each user. -/
def directory (st : AppState) (yearF : Option Int) (locF : Option String) :
    List (List (String × JsVal)) :=
  (st.users.filter (dirMatches yearF locF)).map userDocPublic

/-! ## adminMiddleware and the admin-gated routes -/

/-- adminMiddleware: load the user for the authenticated id and require
role admin; a missing record or any other role fails the check. -/
def isAdminUser (st : AppState) (uid : Nat) : Bool :=
  match st.users.find? (fun u => u.id == uid) with
  | none => false
  | some u => u.role == "admin"

/-- Responses of POST /api/news: 403 Admin access required, or the created item. -/
inductive NewsResp
  | forbidden
  | created (n : NewsItem)
deriving Repr, DecidableEq

/-- POST /api/news (authMiddleware, adminMiddleware): save the news item
with the authenticated id as author. -/
def postNews (st : AppState) (uid : Nat) (title content : String) :
    NewsResp × AppState :=
  if !(isAdminUser st uid) then (.forbidden, st)
  else
    let n : NewsItem := { title := title, content := content, author := uid }
    (.created n, { st with news := st.news ++ [n] })

/-- Responses of POST /api/board-minutes. -/
inductive BoardMinuteResp
  | forbidden
  | missingFile
  | missingTitle
  | created (m : BoardMinute)
deriving Repr, DecidableEq

/-- POST /api/board-minutes (authMiddleware, adminMiddleware, upload): require
an uploaded file and a non-empty title, then save the minute with the
upload-sink URL. -/
def postBoardMinute (st : AppState) (uid : Nat) (file : Option String)
    (title : String) : BoardMinuteResp × AppState :=
  if !(isAdminUser st uid) then (.forbidden, st)
  else
    match file with
    | none => (.missingFile, st)
    | some fileUrl =>
      if title == "" then (.missingTitle, st)
      else
        let m : BoardMinute := { title := title, fileUrl := fileUrl }
        (.created m, { st with boardMinutes := st.boardMinutes ++ [m] })

/-- The projection select(-password) used by GET /api/admin/users. -/
def userDocAdmin (u : User) : List (String × JsVal) :=
  [("_id", .num (u.id : ℚ)), ("email", .str u.email), ("name", .str u.name),
   ("graduationYear", .num (u.graduationYear : ℚ)), ("bio", .str u.bio),
   ("location", .str u.location), ("profilePic", .str u.profilePic),
   ("role", .str u.role), ("isApproved", .jbool u.isApproved)]

/-- Responses of GET /api/admin/users. -/
inductive AdminUsersResp
  | forbidden
  | ok (docs : List (List (String × JsVal)))
deriving Repr, DecidableEq

/-- GET /api/admin/users (authMiddleware, adminMiddleware): all users minus
the password field.  A pure read: the state is unchanged. -/
def getAdminUsers (st : AppState) (uid : Nat) : AdminUsersResp :=
  if !(isAdminUser st uid) then .forbidden else .ok (st.users.map userDocAdmin)

/-- Responses of GET /api/donations. -/
inductive DonationsListResp
  | forbidden
  | ok (ds : List Donation)
deriving Repr, DecidableEq

/-- GET /api/donations (authMiddleware, adminMiddleware): the donation list
(donor-name population and date sort elided).  A pure read. -/
def getDonations (st : AppState) (uid : Nat) : DonationsListResp :=
  if !(isAdminUser st uid) then .forbidden else .ok st.donations

/-! ## POST /api/donations/create-payment -/

/-- The request object handed to paystack.transaction.initialize. -/
structure InitReq where
  amount : ℤ
  email : String
  currency : String
  reference : String
  callbackUrl : String
  userId : Nat
deriving Repr, DecidableEq

/-- JS Math.round: round half toward positive infinity. -/
def jsRound (q : ℚ) : ℤ := Rat.floor (q + 1/2)

/-- Responses of the create-payment handler.  The catch branch sends a 500
whose body carries both a msg field and a details field holding the message
extracted from the adapter error. -/
inductive CreatePayResp
  | invalidAmount
  | ok (authorizationUrl : String)
  | err500 (msg details : String)
deriving Repr, DecidableEq

/-- The details field of a create-payment response body, when present. -/
def CreatePayResp.detailsOf : CreatePayResp → Option String
  | .err500 _ d => some d
  | _ => none

/-- POST /api/donations/create-payment (authMiddleware): reject a falsy or
below-1 amount before any gateway call; normalise the currency to USD or else
NGN; call initialize with the amount scaled by 100 and rounded, the token
email or the fixed fallback, and the metadata user id; on a gateway throw,
answer 500 with msg Payment initialization failed plus the adapter message as
details.  The second component records the request sent to the gateway. -/
def createPayment (user : TokenPayload) (amount : ℚ) (currency : String)
    (reference : String) (gateway : InitReq → Except String String) :
    CreatePayResp × Option InitReq :=
  if amount = 0 ∨ amount < 1 then (.invalidAmount, none)
  else
    let validCurrency := if jsToUpper currency == "USD" then "USD" else "NGN"
    let req : InitReq :=
      { amount := jsRound (amount * 100),
        email := user.email.getD "alumni@kghs.com",
        currency := validCurrency,
        reference := reference,
        callbackUrl := "http://localhost:5174/donations/success",
        userId := user.id }
    (match gateway req with
     | .ok url => .ok url
     | .error e => .err500 "Payment initialization failed" e,
     some req)

/-! ## GET /api/donations/verify/:reference -/

/-- The data object of a successful paystack.transaction.verify call. -/
structure VerifyData where
  status : String
  amount : ℚ
deriving Repr, DecidableEq

/-- Responses of the verify handler: 200 success, 400 with success false, or
the 500 of the catch branch carrying only the generic msg. -/
inductive VerifyResp
  | ok
  | failed
  | err500 (msg : String)
deriving Repr, DecidableEq

/-- GET /api/donations/verify/:reference (authMiddleware): on gateway status
success store a Donation with the gateway amount divided by 100 and the
authenticated id as donor; otherwise answer 400 with success false; on a
gateway throw answer 500 Verification failed. -/
def verifyPayment (st : AppState) (uid : Nat)
    (gateway : Except String VerifyData) : VerifyResp × AppState :=
  match gateway with
  | .error _ => (.err500 "Verification failed", st)
  | .ok d =>
    if d.status == "success" then
      let don : Donation := { amount := d.amount / 100, donor := uid }
      (.ok, { st with donations := st.donations ++ [don] })
    else (.failed, st)

/-! ## PUT /api/admin/users/:id -/

/-- Responses of the admin user-update handler. -/
inductive AdminUpdateResp
  | forbidden
  | okUser (u : User)
  | okNull
  | err500 (msg : String)
deriving Repr, DecidableEq

/-- PUT /api/admin/users/:id (authMiddleware, adminMiddleware):
findByIdAndUpdate writes the isApproved value from the body and returns the
updated user (a null when the id matches no user); when the body value is
true, sendMail runs after the write, and a throw from either the store
(storeFails) or the mailer lands in the catch branch answering 500 Server
error.  Reading user.email on a null user also throws into the same catch.
The write is never rolled back. -/
def adminUpdateUser (st : AppState) (callerId targetId : Nat)
    (isApproved : Bool) (storeFails : Bool)
    (emailResult : Except String Unit) : AdminUpdateResp × AppState :=
  if !(isAdminUser st callerId) then (.forbidden, st)
  else if storeFails then (.err500 "Server error", st)
  else
    match st.users.find? (fun u => u.id == targetId) with
    | none =>
      if isApproved then (.err500 "Server error", st)
      else (.okNull, st)
    | some u =>
      let u2 : User := { u with isApproved := isApproved }
      let upd : User → User :=
        fun v => if v.id == targetId then { v with isApproved := isApproved } else v
      let st2 : AppState := { st with users := st.users.map upd }
      if isApproved then
        match emailResult with
        | .ok _ => (.okUser u2, st2)
        | .error _ => (.err500 "Server error", st2)
      else (.okUser u2, st2)

/-! ## POST /api/forums/:id/reply -/

/-- Response of the reply handler on the non-throwing path. -/
inductive ForumReplyResp
  | okThread (t : ForumThread)
deriving Repr, DecidableEq

/-- POST /api/forums/:id/reply (authMiddleware): findById the thread, push a
reply onto its replies array, save the whole document back.  The handler has
no try/catch and no null check: when the id matches no thread, findById
yields null and thread.replies throws an uncaught TypeError, modelled as the
Except.error branch with the state unchanged. -/
def forumReply (st : AppState) (threadId uid : Nat) (content : String) :
    Except String ForumReplyResp × AppState :=
  match st.threads.find? (fun t => t.id == threadId) with
  | none => (.error "TypeError: cannot read replies of null", st)
  | some t =>
    let t2 : ForumThread :=
      { t with replies := t.replies ++ [({ content := content, author := uid } : Reply)] }
    (.ok (.okThread t2),
     { st with threads := st.threads.map (fun v => if v.id == threadId then t2 else v) })

/-! ## Catch boundaries of the remaining try/catch handlers

The signup, login and board-minutes handlers also wrap their body in
try/catch.  A throw from any awaited call inside the try, carrying message e,
is modelled by the parameter thrown = some e: the catch logs it and answers a
fixed 500 whose body never depends on e. -/

/-- A response from behind a try/catch boundary: the body's response, or the
500 of the catch branch. -/
inductive Catch (α : Type)
  | body (r : α)
  | err500 (msg : String)
deriving Repr, DecidableEq

/-- POST /api/auth/signup with its catch boundary: a throw answers 500 Server
error, else the handler body runs. -/
def signupRoute (st : AppState) (currentYear : Int) (email password name : String)
    (graduationYear : Int) (bcryptHash : String → String)
    (thrown : Option String) : Catch SignupResp × AppState :=
  match thrown with
  | some _ => (.err500 "Server error", st)
  | none =>
    let r := signup st currentYear email password name graduationYear bcryptHash
    (.body r.1, r.2)

/-- POST /api/auth/login with its catch boundary: a throw answers 500 Server
error, else the handler body runs. -/
def loginRoute (st : AppState) (email password : String)
    (bcryptCompare : String → String → Bool)
    (thrown : Option String) : Catch LoginResp :=
  match thrown with
  | some _ => .err500 "Server error"
  | none => .body (login st email password bcryptCompare)

/-- GET /api/board-minutes (authMiddleware) with its catch boundary: a throw
answers 500 Server error, else the stored minutes are listed (date sort
elided). -/
def getBoardMinutes (st : AppState) (thrown : Option String) :
    Catch (List BoardMinute) :=
  match thrown with
  | some _ => .err500 "Server error"
  | none => .body st.boardMinutes

/-- POST /api/board-minutes with its catch boundary: the admin gate of the
middleware runs first, then a throw from the handler body answers 500 Upload
failed, else the body runs. -/
def postBoardMinuteRoute (st : AppState) (uid : Nat) (file : Option String)
    (title : String) (thrown : Option String) : Catch BoardMinuteResp × AppState :=
  if !(isAdminUser st uid) then (.body .forbidden, st)
  else
    match thrown with
    | some _ => (.err500 "Upload failed", st)
    | none =>
      let r := postBoardMinute st uid file title
      (.body r.1, r.2)

/-! ## Helper lemmas -/

/-- jsRound agrees with the mathematical floor of q + 1/2. -/
theorem jsRound_floor (q : ℚ) : jsRound q = ⌊q + 1/2⌋ := by
  rw [jsRound, Rat.floor_def', ← Rat.floor_def]

/-- Characterisation of jsRound by bounds, for evaluating concrete rounds. -/
theorem jsRound_eq {q : ℚ} {z : ℤ} (h1 : (z : ℚ) ≤ q + 1/2) (h2 : q + 1/2 < z + 1) :
    jsRound q = z := by
  rw [jsRound_floor, Int.floor_eq_iff]
  exact ⟨h1, h2⟩

/-- On patterns without the dot metacharacter, pattern-prefix matching is
literal prefix matching. -/
theorem patMatch_no_dot (p : List Char) (h : '.' ∉ p) :
    ∀ t, patMatch p t = p.isPrefixOf t := by
  induction p with
  | nil =>
    intro t
    simp [patMatch, List.isPrefixOf]
  | cons c ps ih =>
    intro t
    cases t with
    | nil => simp [patMatch, List.isPrefixOf]
    | cons a ts =>
      have hc : (c == '.') = false := by
        simp only [beq_eq_false_iff_ne, ne_eq]
        intro heq
        exact h (by simp [heq])
      have h2 : '.' ∉ ps := fun hm => h (List.mem_cons_of_mem _ hm)
      simp [patMatch, List.isPrefixOf, ih h2, hc]

/-- For a filter string without the dot metacharacter, the regex search of the
directory route coincides with case-insensitive substring containment. -/
theorem regexSearch_no_metachar (pat hay : String)
    (h : '.' ∉ (jsToLower pat).data) :
    regexSearch pat hay = strContainsCI hay pat := by
  unfold regexSearch strContainsCI
  simp only [patMatch_no_dot _ h]

/-! ## Example documents and states used by counterexamples and witnesses -/

/-- An unapproved alumni user. -/
def exUserC1 : User :=
  { id := 1, email := "amara@example.com", password := "hashedpw", name := "Amara",
    graduationYear := 1999, bio := "", location := "Lagos, Nigeria", profilePic := "",
    role := "alumni", isApproved := false }

/-- An approved alumni user. -/
def exUserC1b : User :=
  { exUserC1 with id := 2, email := "bisi@example.com", isApproved := true }

/-- A store holding only the unapproved user. -/
def exStC1 : AppState :=
  { users := [exUserC1], threads := [], donations := [], news := [],
    boardMinutes := [], nextId := 3 }

/-- A store holding the unapproved and the approved user. -/
def exStC1b : AppState := { exStC1 with users := [exUserC1, exUserC1b] }

/-- An admin user. -/
def exAdminC2 : User :=
  { id := 9, email := "admin@example.com", password := "h", name := "Root",
    graduationYear := 1990, bio := "", location := "", profilePic := "",
    role := "admin", isApproved := true }

/-- A user awaiting approval. -/
def exPendingC2 : User :=
  { id := 3, email := "newbie@example.com", password := "h2", name := "Ng",
    graduationYear := 2001, bio := "", location := "", profilePic := "",
    role := "alumni", isApproved := false }

/-- A store holding an admin and a pending user. -/
def exStC2 : AppState :=
  { users := [exAdminC2, exPendingC2], threads := [], donations := [], news := [],
    boardMinutes := [], nextId := 10 }

/-- A token as issued by login: id only. -/
def exToken : TokenPayload := { id := 3, email := none }

/-- An approved alumni user with a location. -/
def exUserC6 : User :=
  { id := 5, email := "chi@example.com", password := "h", name := "Chi",
    graduationYear := 1999, bio := "", location := "Lagos, Nigeria", profilePic := "",
    role := "alumni", isApproved := true }

/-- A store holding one approved user. -/
def exStC6 : AppState :=
  { users := [exUserC6], threads := [], donations := [], news := [],
    boardMinutes := [], nextId := 6 }

/-- An empty store. -/
def exStC10 : AppState :=
  { users := [], threads := [], donations := [], news := [],
    boardMinutes := [], nextId := 1 }

/-! ## Claim C1 -/

/-- Claim C1, as frozen, is false on the code: the login handler tests
isApproved before comparing the password, so an unapproved user supplying a
wrong password (the comparison yields false on every input here) receives the
pending-approval response, not invalid-credentials. -/
theorem c1_login_unapproved_wrong_password_cex :
    login exStC1 "amara@example.com" "wrong" (fun _ _ => false) = .pendingApproval
    ∧ login exStC1 "amara@example.com" "wrong" (fun _ _ => false) ≠ .invalidCredentials := by
  constructor
  · decide
  · decide

/-- Claim C1 amended: when the email matches a stored user, a wrong password
yields invalid-credentials only for an approved user; for an unapproved user
the pending-approval check runs first, so the response is pending-approval no
matter what the password comparison would say. -/
theorem c1_login_password_approval_order (st : AppState) (email pw : String)
    (cmp : String → String → Bool) (u : User)
    (hfind : st.users.find? (fun v => v.email == email) = some u) :
    (u.isApproved = false → login st email pw cmp = .pendingApproval)
    ∧ (u.isApproved = true → cmp pw u.password = false →
        login st email pw cmp = .invalidCredentials) := by
  constructor
  · intro h
    simp [login, hfind, h]
  · intro h hc
    simp [login, hfind, h, hc]

/-- Witness for the amended C1 at a concrete store: an approved user with a
failing password comparison receives invalid-credentials. -/
theorem c1_login_password_approval_order_w :
    login exStC1b "bisi@example.com" "wrong" (fun _ _ => false) = .invalidCredentials :=
  (c1_login_password_approval_order exStC1b "bisi@example.com" "wrong"
    (fun _ _ => false) exUserC1b (by decide)).2 (by decide) (by decide)

/-! ## Claim C2 -/

/-- Claim C2: approving a user writes isApproved true first; when the
subsequent email send throws, the catch answers the same 500 Server error a
store failure produces, and the already-written approval stays in the store. -/
theorem c2_admin_approval_email_failure (st : AppState) (callerId targetId : Nat)
    (u : User) (e : String)
    (hadmin : isAdminUser st callerId = true)
    (hfind : st.users.find? (fun v => v.id == targetId) = some u) :
    (adminUpdateUser st callerId targetId true false (.error e)).1 = .err500 "Server error"
    ∧ (adminUpdateUser st callerId targetId true false (.error e)).1
        = (adminUpdateUser st callerId targetId true true (.ok ())).1
    ∧ { u with isApproved := true }
        ∈ (adminUpdateUser st callerId targetId true false (.error e)).2.users := by
  have hmem : u ∈ st.users := List.mem_of_find?_eq_some hfind
  have hp : (u.id == targetId) = true := by
    have h := List.find?_some hfind
    simpa using h
  refine ⟨?_, ?_, ?_⟩
  · simp [adminUpdateUser, hadmin, hfind]
  · simp [adminUpdateUser, hadmin, hfind]
  · simp only [adminUpdateUser, hadmin, Bool.not_true, Bool.false_eq_true, if_false,
      hfind]
    have hm := List.mem_map_of_mem
      (f := fun v => if v.id == targetId then { v with isApproved := true } else v) hmem
    simp only [hp, if_true] at hm
    simpa using hm

/-- Witness for C2 at a concrete store: the admin approves the pending user,
the mailer throws, the response is the generic 500 and the user stays
approved. -/
theorem c2_admin_approval_email_failure_w :
    (adminUpdateUser exStC2 9 3 true false (.error "smtp down")).1 = .err500 "Server error"
    ∧ (adminUpdateUser exStC2 9 3 true false (.error "smtp down")).1
        = (adminUpdateUser exStC2 9 3 true true (.ok ())).1
    ∧ { exPendingC2 with isApproved := true }
        ∈ (adminUpdateUser exStC2 9 3 true false (.error "smtp down")).2.users :=
  c2_admin_approval_email_failure exStC2 9 3 exPendingC2 "smtp down" (by decide) (by decide)

/-! ## Claim C3 -/

/-- Claim C3, as frozen, is false on the code: the catch branch of the
create-payment handler does surface adapter error detail to the client.  At a
concrete request whose gateway call throws with message Invalid key, the 500
response body carries a details field equal to that adapter message. -/
theorem c3_create_payment_details_cex :
    (createPayment exToken 50 "NGN" "kghs-don-r1" (fun _ => .error "Invalid key")).1
      = .err500 "Payment initialization failed" "Invalid key"
    ∧ CreatePayResp.detailsOf
        (createPayment exToken 50 "NGN" "kghs-don-r1" (fun _ => .error "Invalid key")).1
      = some "Invalid key" := by
  constructor
  · decide
  · decide

/-- Claim C3 amended: in every handler with a try/catch boundary — signup,
login, board-minutes list, board-minutes create, verify-payment and admin
user-update — an unexpected failure yields a 500 whose body is a fixed
generic message, independent of the failure detail e; the create-payment
handler is the one exception, its 500 body carrying the adapter error message
as a details field. -/
theorem c3_error_response_policy (st : AppState) (callerId targetId uid : Nat)
    (p : TokenPayload) (amount : ℚ)
    (currency reference email pw name title e : String) (cy gy : Int)
    (hashf : String → String) (cmp : String → String → Bool)
    (file : Option String)
    (hadmin : isAdminUser st callerId = true)
    (hamount : 1 ≤ amount) :
    (signupRoute st cy email pw name gy hashf (some e)).1 = .err500 "Server error"
    ∧ loginRoute st email pw cmp (some e) = .err500 "Server error"
    ∧ getBoardMinutes st (some e) = .err500 "Server error"
    ∧ (postBoardMinuteRoute st callerId file title (some e)).1 = .err500 "Upload failed"
    ∧ (verifyPayment st uid (.error e)).1 = .err500 "Verification failed"
    ∧ (adminUpdateUser st callerId targetId true true (.ok ())).1 = .err500 "Server error"
    ∧ (createPayment p amount currency reference (fun _ => .error e)).1
        = .err500 "Payment initialization failed" e := by
  refine ⟨rfl, rfl, rfl, ?_, rfl, ?_, ?_⟩
  · simp [postBoardMinuteRoute, hadmin]
  · simp [adminUpdateUser, hadmin]
  · have h1 : ¬ amount < 1 := not_lt.mpr hamount
    have h0 : amount ≠ 0 := by
      intro h
      rw [h] at hamount
      norm_num at hamount
    simp [createPayment, h0, h1]

/-- Witness for the amended C3 at concrete inputs: all six catch boundaries
answer their fixed generic message, while create-payment carries the adapter
message. -/
theorem c3_error_response_policy_w :
    (signupRoute exStC2 2025 "x@example.com" "pw" "X" 2000 (fun s => s) (some "boom")).1
      = .err500 "Server error"
    ∧ loginRoute exStC2 "x@example.com" "pw" (fun _ _ => true) (some "boom")
      = .err500 "Server error"
    ∧ getBoardMinutes exStC2 (some "boom") = .err500 "Server error"
    ∧ (postBoardMinuteRoute exStC2 9 (some "f.pdf") "t" (some "boom")).1
      = .err500 "Upload failed"
    ∧ (verifyPayment exStC2 3 (.error "boom")).1 = .err500 "Verification failed"
    ∧ (adminUpdateUser exStC2 9 3 true true (.ok ())).1 = .err500 "Server error"
    ∧ (createPayment exToken 5 "NGN" "r" (fun _ => .error "boom")).1
        = .err500 "Payment initialization failed" "boom" :=
  c3_error_response_policy exStC2 9 3 3 exToken 5 "NGN" "r" "x@example.com" "pw" "X"
    "t" "boom" 2025 2000 (fun s => s) (fun _ _ => true) (some "f.pdf")
    (by decide) (by norm_num)

/-! ## Claim C4 -/

/-- Claim C4: verify-payment stores a Donation exactly when the gateway
reports status success, with the gateway amount divided by 100 and the
authenticated id as donor; for any other gateway status, and for a gateway
throw, the donation collection (and the whole store) is unchanged and the
response is a failure. -/
theorem c4_verify_payment_donation (st : AppState) (uid : Nat)
    (gw : Except String VerifyData) :
    (∀ d, gw = .ok d → d.status ≠ "success" →
        verifyPayment st uid gw = (.failed, st))
    ∧ (∀ e, gw = .error e →
        verifyPayment st uid gw = (.err500 "Verification failed", st))
    ∧ (∀ d, gw = .ok d → d.status = "success" →
        verifyPayment st uid gw
          = (.ok, { st with donations :=
              st.donations ++ [{ amount := d.amount / 100, donor := uid }] })) := by
  refine ⟨?_, ?_, ?_⟩
  · intro d hgw hs
    subst hgw
    simp [verifyPayment, hs]
  · intro e hgw
    subst hgw
    rfl
  · intro d hgw hs
    subst hgw
    simp [verifyPayment, hs]

/-- Witness for C4 at a concrete store: a gateway report with status failed
creates no donation and answers the failure response. -/
theorem c4_verify_payment_donation_w :
    verifyPayment exStC2 3 (.ok { status := "failed", amount := 5000 })
      = (.failed, exStC2) :=
  (c4_verify_payment_donation exStC2 3 (.ok { status := "failed", amount := 5000 })).1
    { status := "failed", amount := 5000 } rfl (by decide)

/-! ## Claim C5 -/

/-- Claim C5: a create-payment amount of zero or below is rejected with the
validation error and no gateway request is recorded; at amount 100 and
currency usd, the request handed to initialize carries currency USD and
amount 10000 minor units. -/
theorem c5_create_payment_validation (p : TokenPayload) (reference : String)
    (gw : InitReq → Except String String) (amount : ℚ) (currency : String)
    (hle : amount ≤ 0) :
    createPayment p amount currency reference gw = (.invalidAmount, none)
    ∧ ∃ req : InitReq, (createPayment p 100 "usd" reference gw).2 = some req
        ∧ req.currency = "USD" ∧ req.amount = 10000 := by
  constructor
  · have hc : amount = 0 ∨ amount < 1 := by
      rcases lt_or_eq_of_le hle with h | h
      · exact Or.inr (h.trans (by norm_num))
      · exact Or.inl h
    simp [createPayment, hc]
  · have hcond : ¬ ((100 : ℚ) = 0 ∨ (100 : ℚ) < 1) := by norm_num
    refine ⟨{ amount := jsRound ((100 : ℚ) * 100),
              email := p.email.getD "alumni@kghs.com",
              currency := if jsToUpper "usd" == "USD" then "USD" else "NGN",
              reference := reference,
              callbackUrl := "http://localhost:5174/donations/success",
              userId := p.id }, ?_, ?_, ?_⟩
    · simp [createPayment, hcond]
    · rfl
    · exact jsRound_eq (by norm_num) (by norm_num)

/-- Witness for C5 at a concrete request: amount zero is rejected with no
gateway call recorded. -/
theorem c5_create_payment_validation_w :
    createPayment exToken 0 "NGN" "r" (fun _ => .ok "u") = (.invalidAmount, none) :=
  (c5_create_payment_validation exToken "r" (fun _ => .ok "u") 0 "NGN" (by norm_num)).1

/-! ## Claim C6 -/

/-- Claim C6, as frozen, is false on the code: the directory route hands the
location filter string to the store as a raw regex pattern, not as a literal
substring.  With the dot filter the listing returns the stored user although
the dot character is not a substring of that user's location. -/
theorem c6_directory_substring_cex :
    directory exStC6 none (some ".") = [userDocPublic exUserC6]
    ∧ strContainsCI exUserC6.location "." = false := by
  constructor
  · decide
  · decide

/-- Claim C6 amended: every document of a directory listing, for every
combination of the optional year and location filters, omits the password and
isApproved keys and comes from a stored user who is approved, has the exact
graduation year whenever the year filter is present, and has a location
matched by the location filter applied as a case-insensitive regex pattern
whenever that filter is present — which, for filter strings free of the
metacharacter, is exactly case-insensitive substring containment. -/
theorem c6_directory_projection (st : AppState) (yearF : Option Int)
    (locF : Option String) (doc : List (String × JsVal))
    (hdoc : doc ∈ directory st yearF locF) :
    "password" ∉ doc.map Prod.fst
    ∧ "isApproved" ∉ doc.map Prod.fst
    ∧ (∀ pat hay, '.' ∉ (jsToLower pat).data →
        regexSearch pat hay = strContainsCI hay pat)
    ∧ ∃ u ∈ st.users, u.isApproved = true
        ∧ (∀ y, yearF = some y → u.graduationYear = y)
        ∧ (∀ l, locF = some l → regexSearch l u.location = true)
        ∧ doc = userDocPublic u := by
  obtain ⟨u, hu, rfl⟩ := List.mem_map.mp hdoc
  obtain ⟨humem, hmatch⟩ := List.mem_filter.mp hu
  simp only [dirMatches, Bool.and_eq_true] at hmatch
  obtain ⟨⟨happ, hyear⟩, hloc⟩ := hmatch
  refine ⟨by simp [userDocPublic], by simp [userDocPublic],
    fun pat hay h => regexSearch_no_metachar pat hay h,
    u, humem, happ, ?_, ?_, rfl⟩
  · intro y hy
    subst hy
    simpa using hyear
  · intro l hl
    subst hl
    simpa using hloc

/-- Witness for C6 at a concrete store and both filters present: the listed
document for the matching approved user carries neither a password nor an
isApproved key. -/
theorem c6_directory_projection_w :
    "password" ∉ (userDocPublic exUserC6).map Prod.fst
    ∧ "isApproved" ∉ (userDocPublic exUserC6).map Prod.fst := by
  have h := c6_directory_projection exStC6 (some 1999) (some "lag")
    (userDocPublic exUserC6) (by decide)
  exact ⟨h.1, h.2.1⟩

/-! ## Claim C7 -/

/-- Claim C7: when the stored user record of the authenticated id is missing
or not an admin, reading the admin user list or the donation list, creating a
news item, or creating a board minute all answer forbidden with the store
unchanged; conversely any non-forbidden outcome of these operations implies
the stored record has the admin role. -/
theorem c7_admin_gate (st : AppState) (uid : Nat) (title content : String)
    (file : Option String) :
    (isAdminUser st uid = false →
      postNews st uid title content = (.forbidden, st)
      ∧ postBoardMinute st uid file title = (.forbidden, st)
      ∧ getAdminUsers st uid = .forbidden
      ∧ getDonations st uid = .forbidden)
    ∧ ((postNews st uid title content).1 ≠ .forbidden → isAdminUser st uid = true)
    ∧ ((postBoardMinute st uid file title).1 ≠ .forbidden → isAdminUser st uid = true)
    ∧ (getAdminUsers st uid ≠ .forbidden → isAdminUser st uid = true)
    ∧ (getDonations st uid ≠ .forbidden → isAdminUser st uid = true) := by
  refine ⟨fun h => ?_, fun h => ?_, fun h => ?_, fun h => ?_, fun h => ?_⟩
  · simp [postNews, postBoardMinute, getAdminUsers, getDonations, h]
  all_goals
    cases ha : isAdminUser st uid
    · exact absurd (by simp [postNews, postBoardMinute, getAdminUsers, getDonations, ha]) h
    · rfl

/-- Witness for C7 at a concrete store: the sole stored user has the alumni
role, and all four operations answer forbidden with the store unchanged. -/
theorem c7_admin_gate_w :
    postNews exStC6 5 "t" "c" = (.forbidden, exStC6)
    ∧ postBoardMinute exStC6 5 (some "file.pdf") "t" = (.forbidden, exStC6)
    ∧ getAdminUsers exStC6 5 = .forbidden
    ∧ getDonations exStC6 5 = .forbidden :=
  (c7_admin_gate exStC6 5 "t" "c" (some "file.pdf")).1 (by decide)

/-! ## Claim C8 -/

/-- Claim C8: a signup whose email is already stored answers the
user-exists error and leaves the whole store, in particular the stored user
records, unchanged. -/
theorem c8_signup_duplicate_email (st : AppState) (currentYear : Int)
    (email pw name : String) (gy : Int) (bcryptHash : String → String)
    (h : ∃ u ∈ st.users, u.email = email) :
    signup st currentYear email pw name gy bcryptHash = (.userExists, st) := by
  obtain ⟨u, hu, he⟩ := h
  have hsome : (st.users.find? (fun v => v.email == email)).isSome := by
    rw [List.find?_isSome]
    exact ⟨u, hu, by simp [he]⟩
  obtain ⟨w, hw⟩ := Option.isSome_iff_exists.mp hsome
  simp [signup, hw]

/-- Witness for C8 at a concrete store: re-registering the stored address
answers the error and returns the store unchanged. -/
theorem c8_signup_duplicate_email_w :
    signup exStC6 2025 "chi@example.com" "pw" "Chi Again" 2000 (fun s => s)
      = (.userExists, exStC6) :=
  c8_signup_duplicate_email exStC6 2025 "chi@example.com" "pw" "Chi Again" 2000
    (fun s => s) ⟨exUserC6, by decide, by decide⟩

/-! ## Claim C9 -/

/-- Claim C9: a login-issued token payload carries no email (only the id), so
every gateway initialize request recorded for a create-payment call
authenticated by such a token carries the fixed fallback address. -/
theorem c9_login_token_gateway_email (st : AppState) (email pw : String)
    (cmp : String → String → Bool) (p : TokenPayload) (i : Nat) (em nm rl : String)
    (hlogin : login st email pw cmp = .success p i em nm rl) :
    p.email = none
    ∧ ∀ (amount : ℚ) (currency reference : String)
        (gw : InitReq → Except String String) (req : InitReq),
        (createPayment p amount currency reference gw).2 = some req →
        req.email = "alumni@kghs.com" := by
  have hpe : p.email = none := by
    unfold login at hlogin
    cases hfind : st.users.find? (fun u => u.email == email) with
    | none =>
      rw [hfind] at hlogin
      exact absurd hlogin (by simp)
    | some u =>
      rw [hfind] at hlogin
      by_cases h1 : u.isApproved
      · by_cases h2 : cmp pw u.password
        · simp only [h1, h2, Bool.not_true, Bool.false_eq_true, if_false] at hlogin
          obtain ⟨htok, -, -, -, -⟩ := LoginResp.success.inj hlogin
          rw [← htok]
        · simp [h1, h2] at hlogin
      · simp [h1] at hlogin
  refine ⟨hpe, ?_⟩
  intro amount currency reference gw req hreq
  by_cases hc : amount = 0 ∨ amount < 1
  · simp [createPayment, hc] at hreq
  · simp only [createPayment, if_neg hc] at hreq
    rw [Option.some_inj] at hreq
    rw [← hreq]
    simp [hpe]

/-- Witness for C9 at a concrete store: the approved user logs in, the issued
payload carries no email, and the request recorded for a create-payment call
under that payload carries the fallback address. -/
theorem c9_login_token_gateway_email_w :
    ({ id := 5, email := none } : TokenPayload).email = none
    ∧ ({ amount := jsRound ((5 : ℚ) * 100), email := "alumni@kghs.com",
         currency := "NGN", reference := "r",
         callbackUrl := "http://localhost:5174/donations/success",
         userId := 5 } : InitReq).email = "alumni@kghs.com" := by
  have h := c9_login_token_gateway_email exStC6 "chi@example.com" "pw"
    (fun _ _ => true) { id := 5, email := none } 5 "chi@example.com" "Chi" "alumni"
    (by decide)
  refine ⟨h.1, h.2 5 "NGN" "r" (fun _ => .ok "u") _ ?_⟩
  have hc : ¬ ((5 : ℚ) = 0 ∨ (5 : ℚ) < 1) := by norm_num
  simp [createPayment, hc]
  decide

/-! ## Claim C10 -/

/-- Claim C10: the reply handler is total only when a thread with the given
id is stored; when no stored thread matches, findById yields null, the
dereference throws an uncaught error (no not-found response exists in the
handler) and no reply is persisted, the store staying unchanged; when a
matching thread exists the reply is appended. -/
theorem c10_forum_reply_requires_thread (st : AppState) (tid uid : Nat)
    (content : String) :
    ((∀ t ∈ st.threads, t.id ≠ tid) →
      forumReply st tid uid content
        = (.error "TypeError: cannot read replies of null", st))
    ∧ (∀ t, st.threads.find? (fun v => v.id == tid) = some t →
        (forumReply st tid uid content).1
          = .ok (.okThread
              { t with replies := t.replies ++ [{ content := content, author := uid }] })) := by
  constructor
  · intro h
    have hfind : st.threads.find? (fun v => v.id == tid) = none := by
      rw [List.find?_eq_none]
      intro t ht
      simp [h t ht]
    simp [forumReply, hfind]
  · intro t hfind
    simp [forumReply, hfind]

/-- Witness for C10 at the empty store: a reply to thread id 42 yields the
thrown-error outcome and the store is unchanged. -/
theorem c10_forum_reply_requires_thread_w :
    forumReply exStC10 42 1 "hello"
      = (.error "TypeError: cannot read replies of null", exStC10) :=
  (c10_forum_reply_requires_thread exStC10 42 1 "hello").1 (by decide)

end KGHS
